import Mathlib

/-!
Shallow embedding of the multi-server MCP client
(src/learning/Clients/multi_server_mcp_client.py) of the MCP-DEMO
repository, together with theorems settling the frozen claims about its
tool registry (connect_to_server, get_all_tools, call_tool, cleanup) and
its conversation orchestrator (process_query).

Modelling conventions:
- Python dicts (self.servers, self.tool_to_server_map) are association
  lists with insertion order and in-place overwrite, mirroring CPython
  dict semantics (dictInsert, dictGet, dictDel below).
- Exceptions are represented by Except String, the String being str(e).
- The network is an oracle passed as a parameter: a ConnectAttempt for
  connect_to_server (either a failure at some stage, or a successful
  handshake yielding the advertised tool list), and a ToolNet function
  for session.call_tool.  The Groq chat-completion API is an oracle of
  type LLM; json.loads is an oracle of type JLoads.
- The AsyncExitStack is modelled as the list of handles of currently
  entered async contexts (exit_stack field); entering pushes, aclose
  empties it.
-/

/-- A tool descriptor as returned by session.list_tools(): name,
description and inputSchema (the schema is opaque to the client, kept as
a String). -/
structure MCPTool where
  name : String
  description : String
  inputSchema : String
deriving DecidableEq

/-- A tool in Groq function-calling format, as built in
connect_to_server lines 92-102: the dict
\x7b"type": "function", "function": \x7b"name", "description", "parameters"\x7d\x7d
with the constant "type" tag left implicit. -/
structure GroqTool where
  name : String
  description : String
  parameters : String
deriving DecidableEq

/-- ServerConnection (class of the same name): identifier, url, whether
self.session is set (non-None), the Groq-format tools and the advertised
tool names. -/
structure ServerConnection where
  server_id : String
  url : String
  session_live : Bool
  tools : List GroqTool
  tool_names : List String
deriving DecidableEq

/-- State of a MultiServerMCPClient: the servers dict, the
tool_to_server_map dict and the entered async contexts of the
AsyncExitStack. -/
structure MCPClientState where
  servers : List (String × ServerConnection)
  tool_to_server_map : List (String × String)
  exit_stack : List String
deriving DecidableEq

/-- Python dict update d[k] = v: overwrite in place if the key exists
(keeping its position), else append at the end. -/
def dictInsert (k : String) (v : α) : List (String × α) → List (String × α)
  | [] => [(k, v)]
  | (k1, v1) :: rest => if k1 = k then (k, v) :: rest else (k1, v1) :: dictInsert k v rest

/-- Python dict lookup d.get(k): first entry with key k, if any. -/
def dictGet (k : String) : List (String × α) → Option α
  | [] => none
  | (k1, v1) :: rest => if k1 = k then some v1 else dictGet k rest

/-- Python del d[k]: remove the entry with key k (the first occurrence). -/
def dictDel (k : String) : List (String × α) → List (String × α)
  | [] => []
  | (k1, v1) :: rest => if k1 = k then rest else (k1, v1) :: dictDel k rest

/-- Keys of a dict, in order. -/
def dictKeys (d : List (String × α)) : List String :=
  d.map (fun p => p.1)

/-- Number of entries of the dict carrying a given key. -/
def countKey (k : String) (d : List (String × α)) : Nat :=
  (d.filter (fun p => p.1 = k)).length

/-- Outcome of the network interaction attempted by connect_to_server:
either an exception at some stage (entered = how many async contexts had
been entered before the failure: 0 = sse_client failed, 1 = ClientSession
failed, 2 = initialize() or list_tools() failed), or full success with
the advertised tool list. -/
inductive ConnectAttempt where
  | fail (entered : Nat)
  | ok (tools : List MCPTool)

/-- The two async contexts entered for a server: the SSE transport and
the ClientSession. -/
def connect_handles (server_id : String) : List String :=
  [server_id ++ "/transport", server_id ++ "/session"]

/-- The fresh client of MultiServerMCPClient.__init__: empty servers
dict, empty tool_to_server_map, empty exit stack. -/
def emptyClient : MCPClientState :=
  { servers := [], tool_to_server_map := [], exit_stack := [] }

/-- connect_to_server (lines 51-112).  A fresh ServerConnection is
stored in self.servers before the try block; on any exception the entry
is deleted and False returned; on success the tool names are recorded in
tool_to_server_map (one insert per name, in order), the Groq-format
tools are stored on the connection, and True is returned. -/
def connect_to_server (st : MCPClientState) (server_id server_url : String)
    (attempt : ConnectAttempt) : MCPClientState × Bool :=
  let server0 : ServerConnection :=
    { server_id := server_id, url := server_url, session_live := false,
      tools := [], tool_names := [] }
  let st1 : MCPClientState := { st with servers := dictInsert server_id server0 st.servers }
  match attempt with
  | ConnectAttempt.fail entered =>
      let st2 : MCPClientState :=
        { st1 with exit_stack := st1.exit_stack ++ (connect_handles server_id).take entered }
      ({ st2 with servers := dictDel server_id st2.servers }, false)
  | ConnectAttempt.ok tools =>
      let st2 : MCPClientState :=
        { st1 with exit_stack := st1.exit_stack ++ connect_handles server_id }
      let tool_names := tools.map (fun t => t.name)
      let new_map := tool_names.foldl (fun m n => dictInsert n server_id m) st2.tool_to_server_map
      let groq_tools := tools.map (fun t =>
        { name := t.name, description := t.description, parameters := t.inputSchema : GroqTool })
      let server : ServerConnection :=
        { server_id := server_id, url := server_url, session_live := true,
          tools := groq_tools, tool_names := tool_names }
      ({ st2 with servers := dictInsert server_id server st2.servers,
                  tool_to_server_map := new_map }, true)

/-- get_all_tools (lines 114-124): extend an accumulator with each
connected server's Groq-format tools, in servers-dict order. -/
def get_all_tools (st : MCPClientState) : List GroqTool :=
  st.servers.foldl (fun acc s => acc ++ s.2.tools) []

/-- One text content element of a tool reply (result.content[i].text). -/
structure TextContent where
  text : String
deriving DecidableEq

/-- Reply of session.call_tool: a list of content elements. -/
structure ToolCallReply where
  content : List TextContent
deriving DecidableEq

/-- Schema-less structured value standing for the decoded Python
argument payload (the spec's tagged union of
null/bool/number/string/array/map); opaque to the client, which only
passes it through to the remote call. -/
inductive JsonValue where
  | null : JsonValue
  | bool (b : Bool) : JsonValue
  | num (n : Int) : JsonValue
  | str (s : String) : JsonValue
  | arr (elems : List JsonValue) : JsonValue
  | obj (fields : List (String × JsonValue)) : JsonValue

/-- Oracle for session.call_tool on a given server: maps
(server_id, tool_name, arguments) to the reply or the raised
exception's message. -/
def ToolNet : Type := String → String → JsonValue → Except String ToolCallReply

/-- Return value of call_tool: the dicts
\x7b"status": "success", "content": c\x7d and
\x7b"status": "error", "message": m\x7d. -/
inductive CallResult where
  | success (content : String)
  | error (message : String)
deriving DecidableEq

/-- call_tool (lines 126-155).  Note that the absent-route check is
Python truthiness (if not server_id:), so an empty-string server id is
treated like an absent route; the extraction result.content[0].text sits
inside the try block, so an empty content list raises IndexError
("list index out of range") and is caught like any remote failure. -/
def call_tool (st : MCPClientState) (net : ToolNet)
    (tool_name : String) (arguments : JsonValue) : CallResult :=
  let sid? := dictGet tool_name st.tool_to_server_map
  if sid? = none ∨ sid? = some "" then
    CallResult.error ("Unknown tool: " ++ tool_name)
  else
    let server_id := sid?.getD ""
    match dictGet server_id st.servers with
    | none => CallResult.error ("Server " ++ server_id ++ " is not connected")
    | some server =>
      if server.session_live = false then
        CallResult.error ("Server " ++ server_id ++ " is not connected")
      else
        match net server_id tool_name arguments with
        | Except.error e =>
            CallResult.error
              ("Error calling tool " ++ tool_name ++ " on server " ++ server_id ++ ": " ++ e)
        | Except.ok result =>
            match result.content with
            | [] =>
                CallResult.error
                  ("Error calling tool " ++ tool_name ++ " on server " ++ server_id
                    ++ ": list index out of range")
            | c :: _ => CallResult.success c.text

/-- cleanup (lines 339-343): await self.exit_stack.aclose() closes every
entered async context; no other field of the client is touched. -/
def cleanup (st : MCPClientState) : MCPClientState :=
  { st with exit_stack := [] }

/-- One connect_to_server invocation: its arguments plus the network
oracle's answer. -/
structure ConnectOp where
  server_id : String
  url : String
  attempt : ConnectAttempt

/-- Client state reached from a fresh client by a sequence of
connect_to_server calls. -/
def runConnects (ops : List ConnectOp) : MCPClientState :=
  ops.foldl (fun st op => (connect_to_server st op.server_id op.url op.attempt).1) emptyClient

/-- Hexadecimal digit (lowercase), as printed by json.dumps escapes. -/
def hexDigit (n : Nat) : Char :=
  if n < 10 then Char.ofNat (48 + n) else Char.ofNat (87 + n)

/-- The \uXXXX escape of a code unit. -/
def uEscape (n : Nat) : String :=
  "\\u" ++ String.mk [hexDigit (n / 4096 % 16), hexDigit (n / 256 % 16),
                      hexDigit (n / 16 % 16), hexDigit (n % 16)]

/-- Escape of one character inside a JSON string, as json.dumps
(ensure_ascii=True, the default) produces it. -/
def jsonEscapeChar (c : Char) : String :=
  if c = '\\' then "\\\\"
  else if c = '"' then "\\\""
  else if c = '\n' then "\\n"
  else if c = '\t' then "\\t"
  else if c = '\r' then "\\r"
  else if c.toNat = 8 then "\\b"
  else if c.toNat = 12 then "\\f"
  else if c.toNat < 32 then uEscape c.toNat
  else if c.toNat < 128 then String.singleton c
  else if c.toNat < 65536 then uEscape c.toNat
  else
    uEscape (55296 + (c.toNat - 65536) / 1024) ++ uEscape (56320 + (c.toNat - 65536) % 1024)

/-- Escape of a whole string for json.dumps output. -/
def jsonEscape (s : String) : String :=
  String.join (s.toList.map jsonEscapeChar)

/-- json.dumps(\x7b"status": "error", "message": msg\x7d), the content
stored in a tool-result message for a failed dispatch (and by the except
branch of the dispatch loop). -/
def dumps_status_error (msg : String) : String :=
  "\x7b\"status\": \"error\", \"message\": \"" ++ jsonEscape msg ++ "\"\x7d"

/-- The function part of a model-emitted tool call: tool name and the
raw (still JSON-text) arguments. -/
structure ToolCallFn where
  name : String
  arguments : String
deriving DecidableEq

/-- A tool call requested by the model: correlation id plus function. -/
structure ToolCall where
  id : String
  function : ToolCallFn
deriving DecidableEq

/-- A conversation message as built by process_query: the user message,
an assistant message (role, content, tool_calls) and a tool-result
message (tool_call_id, content). -/
inductive Msg where
  | user (content : String)
  | assistant (role : String) (content : Option String) (tool_calls : List ToolCall)
  | tool (tool_call_id : String) (content : String)
deriving DecidableEq

/-- The message of response.choices[0] of a chat completion: role,
content (None modelled as Option.none) and tool calls (a None or empty
tool_calls attribute is the empty list; the code only tests its
truthiness and iterates it). -/
structure AssistantMessage where
  role : String
  content : Option String
  tool_calls : List ToolCall
deriving DecidableEq

/-- Arguments of one groq_client.chat.completions.create call (the model
identifier, constant over a query, is omitted). -/
structure ModelCall where
  messages : List Msg
  tools : List GroqTool
  tool_choice : String
deriving DecidableEq

/-- Oracle for the Groq chat-completion API: messages, tools and
tool_choice determine the assistant message of the reply. -/
def LLM : Type := List Msg → List GroqTool → String → AssistantMessage

/-- Oracle for json.loads on the model-emitted argument text: the
decoded value, or the raised exception's message. -/
def JLoads : Type := String → Except String JsonValue

/-- The assistant message appended to the conversation for the first
response (lines 187-203): content kept as is (possibly None), tool_calls
as emitted (empty when absent). -/
def assistant_msg_of (m : AssistantMessage) : Msg :=
  Msg.assistant m.role m.content m.tool_calls

/-- Python (c or d) for an optional string c: d when c is None or empty,
otherwise c; used for the follow-up assistant message's content
(line 256). -/
def py_str_or (c : Option String) (d : String) : String :=
  match c with
  | none => d
  | some s => if s = "" then d else s

/-- Body of the dispatch loop (lines 208-240 and 270-294) for one tool
call: json.loads the arguments (a decode failure is caught by the except
branch, which appends an error tool message without calling call_tool);
on success call the tool, and append its text on success or
json.dumps of the error dict on error.  Exactly one tool-result message
comes out, tagged with the request's correlation id. -/
def handle_tool_call (st : MCPClientState) (net : ToolNet) (jloads : JLoads)
    (tc : ToolCall) : Msg :=
  match jloads tc.function.arguments with
  | Except.error e => Msg.tool tc.id (dumps_status_error e)
  | Except.ok args =>
    match call_tool st net tc.function.name args with
    | CallResult.success content => Msg.tool tc.id content
    | CallResult.error m => Msg.tool tc.id (dumps_status_error m)

/-- One dispatch round: the tool-result messages appended for the
requested tool calls, in request order. -/
def dispatch_round (st : MCPClientState) (net : ToolNet) (jloads : JLoads)
    (tool_calls : List ToolCall) : List Msg :=
  tool_calls.map (handle_tool_call st net jloads)

/-- Execution record of one process_query run: the returned value (or
the raised exception's message), every chat-completion call made, the
final conversation transcript, and how many dispatch rounds ran. -/
structure QueryTrace where
  result : Except String (Option String)
  model_calls : List ModelCall
  final_messages : List Msg
  rounds : Nat

/-- process_query (lines 157-309), instrumented to record its
chat-completion calls, transcript and dispatch-round count.  With no
servers connected it raises ValueError("No servers connected").
Otherwise: first call with tool_choice "auto"; if the response carries
no tool calls, return its content.  Else dispatch round one, second call
with tool_choice "auto"; if that response carries no tool calls, return
its content.  Else append the follow-up assistant message, dispatch
round two, and make the final call with tool_choice "none", returning
its content. -/
def process_query_traced (st : MCPClientState) (llm : LLM) (jloads : JLoads)
    (net : ToolNet) (query : String) : QueryTrace :=
  if st.servers = [] then
    { result := Except.error "No servers connected", model_calls := [],
      final_messages := [], rounds := 0 }
  else
    let all_tools := get_all_tools st
    let call1 : ModelCall :=
      { messages := [Msg.user query], tools := all_tools, tool_choice := "auto" }
    let assistant_message := llm call1.messages call1.tools call1.tool_choice
    let messages1 := [Msg.user query, assistant_msg_of assistant_message]
    if assistant_message.tool_calls = [] then
      { result := Except.ok assistant_message.content, model_calls := [call1],
        final_messages := messages1, rounds := 0 }
    else
      let messages2 := messages1 ++ dispatch_round st net jloads assistant_message.tool_calls
      let call2 : ModelCall :=
        { messages := messages2, tools := all_tools, tool_choice := "auto" }
      let final_message := llm call2.messages call2.tools call2.tool_choice
      if final_message.tool_calls = [] then
        { result := Except.ok final_message.content, model_calls := [call1, call2],
          final_messages := messages2, rounds := 1 }
      else
        let messages3 := messages2
          ++ [Msg.assistant final_message.role (some (py_str_or final_message.content ""))
                final_message.tool_calls]
          ++ dispatch_round st net jloads final_message.tool_calls
        let call3 : ModelCall :=
          { messages := messages3, tools := all_tools, tool_choice := "none" }
        let final_final_message := llm call3.messages call3.tools call3.tool_choice
        { result := Except.ok final_final_message.content,
          model_calls := [call1, call2, call3],
          final_messages := messages3, rounds := 2 }

/-- process_query as the caller sees it: the returned string (None
possible), or the raised exception's message. -/
def process_query (st : MCPClientState) (llm : LLM) (jloads : JLoads)
    (net : ToolNet) (query : String) : Except String (Option String) :=
  (process_query_traced st llm jloads net query).result

/-! ### Dictionary lemmas -/

theorem dictGet_insert_self (k : String) (v : α) (d : List (String × α)) :
    dictGet k (dictInsert k v d) = some v := by
  induction d with
  | nil => simp [dictInsert, dictGet]
  | cons p rest ih =>
    by_cases h : p.1 = k
    · simp [dictInsert, dictGet, h]
    · simpa [dictInsert, dictGet, h] using ih

theorem dictGet_insert_ne (k q : String) (v : α) (d : List (String × α)) (h : k ≠ q) :
    dictGet q (dictInsert k v d) = dictGet q d := by
  induction d with
  | nil => simp [dictInsert, dictGet, h]
  | cons p rest ih =>
    by_cases hp : p.1 = k
    · simp [dictInsert, dictGet, hp, h]
    · simp [dictInsert, dictGet, hp]
      by_cases hq : p.1 = q <;> simp [hq, ih]

theorem dictInsert_insert (k : String) (v w : α) (d : List (String × α)) :
    dictInsert k v (dictInsert k w d) = dictInsert k v d := by
  induction d with
  | nil => simp [dictInsert]
  | cons p rest ih =>
    by_cases h : p.1 = k
    · simp [dictInsert, h]
    · simp [dictInsert, h, ih]

theorem dictDel_insert (k : String) (v : α) (d : List (String × α)) :
    dictDel k (dictInsert k v d) = dictDel k d := by
  induction d with
  | nil => simp [dictInsert, dictDel]
  | cons p rest ih =>
    by_cases h : p.1 = k
    · simp [dictInsert, dictDel, h]
    · simp [dictInsert, dictDel, h, ih]

theorem dictGet_eq_none_iff (k : String) (d : List (String × α)) :
    dictGet k d = none ↔ k ∉ dictKeys d := by
  induction d with
  | nil => simp [dictGet, dictKeys]
  | cons p rest ih =>
    by_cases h : p.1 = k
    · simp [dictGet, dictKeys, h]
    · simp [dictGet, dictKeys, h, ih]
      intro he
      exact fun hk => h hk.symm

theorem dictDel_of_get_none (k : String) (d : List (String × α))
    (h : dictGet k d = none) : dictDel k d = d := by
  induction d with
  | nil => simp [dictDel]
  | cons p rest ih =>
    by_cases hp : p.1 = k
    · simp [dictGet, hp] at h
    · simp [dictGet, hp] at h
      simp [dictDel, hp, ih h]

theorem mem_of_mem_dictInsert (p : String × α) (k : String) (v : α)
    (d : List (String × α)) (h : p ∈ dictInsert k v d) : p = (k, v) ∨ p ∈ d := by
  induction d with
  | nil => simpa [dictInsert] using h
  | cons q rest ih =>
    by_cases hq : q.1 = k
    · simp [dictInsert, hq] at h
      rcases h with h | h
      · exact Or.inl h
      · exact Or.inr (List.mem_cons_of_mem q h)
    · simp [dictInsert, hq] at h
      rcases h with h | h
      · exact Or.inr (by simp [h])
      · rcases ih h with h1 | h1
        · exact Or.inl h1
        · exact Or.inr (List.mem_cons_of_mem q h1)

theorem mem_of_mem_dictDel (p : String × α) (k : String) (d : List (String × α))
    (h : p ∈ dictDel k d) : p ∈ d := by
  induction d with
  | nil => simp [dictDel] at h
  | cons q rest ih =>
    by_cases hq : q.1 = k
    · simp [dictDel, hq] at h
      exact List.mem_cons_of_mem q h
    · simp [dictDel, hq] at h
      rcases h with h | h
      · simp [h]
      · exact List.mem_cons_of_mem q (ih h)

theorem dictKeys_cons (p : String × α) (d : List (String × α)) :
    dictKeys (p :: d) = p.1 :: dictKeys d := rfl

theorem dictKeys_insert (k : String) (v : α) (d : List (String × α)) :
    dictKeys (dictInsert k v d)
      = if k ∈ dictKeys d then dictKeys d else dictKeys d ++ [k] := by
  induction d with
  | nil => simp [dictInsert, dictKeys]
  | cons p rest ih =>
    by_cases hp : p.1 = k
    · simp [dictInsert, dictKeys, hp]
    · have hne : ¬ k = p.1 := fun he => hp he.symm
      simp only [dictInsert, hp, if_false, dictKeys_cons]
      rw [ih]
      by_cases hk : k ∈ dictKeys rest
      · simp [hk, hne]
      · simp [hk, hne]

theorem dictKeys_nodup_insert (k : String) (v : α) (d : List (String × α))
    (h : (dictKeys d).Nodup) : (dictKeys (dictInsert k v d)).Nodup := by
  rw [dictKeys_insert]
  by_cases hk : k ∈ dictKeys d
  · simpa [hk] using h
  · simp only [hk, if_false]
    rw [List.nodup_append]
    refine ⟨h, List.nodup_singleton k, ?_⟩
    intro a ha hb
    simp only [List.mem_singleton] at hb
    exact hk (hb ▸ ha)

theorem dictKeys_del_sublist (k : String) (d : List (String × α)) :
    (dictKeys (dictDel k d)).Sublist (dictKeys d) := by
  induction d with
  | nil => simp [dictDel, dictKeys]
  | cons p rest ih =>
    by_cases hp : p.1 = k
    · simp only [dictDel, hp, if_true]
      exact List.sublist_cons_of_sublist p.1 (List.Sublist.refl _)
    · simp only [dictDel, hp, if_false, dictKeys, List.map_cons]
      exact List.Sublist.cons₂ p.1 ih

theorem dictKeys_nodup_del (k : String) (d : List (String × α))
    (h : (dictKeys d).Nodup) : (dictKeys (dictDel k d)).Nodup :=
  List.Nodup.sublist (dictKeys_del_sublist k d) h

theorem dictGet_isSome_insert (k q : String) (v : α) (d : List (String × α))
    (h : (dictGet q d).isSome) : (dictGet q (dictInsert k v d)).isSome := by
  by_cases hk : k = q
  · subst hk; simp [dictGet_insert_self]
  · rwa [dictGet_insert_ne k q v d hk]

/-- Folding dictInsert of a constant value over a list of names. -/
def insertAll (names : List String) (v : String) (d : List (String × String)) :
    List (String × String) :=
  names.foldl (fun m n => dictInsert n v m) d

theorem insertAll_nil (v : String) (d : List (String × String)) :
    insertAll [] v d = d := rfl

theorem insertAll_cons (n : String) (names : List String) (v : String)
    (d : List (String × String)) :
    insertAll (n :: names) v d = insertAll names v (dictInsert n v d) := rfl

theorem dictGet_insertAll_of_not_mem (names : List String) (v q : String)
    (d : List (String × String)) (h : q ∉ names) :
    dictGet q (insertAll names v d) = dictGet q d := by
  induction names generalizing d with
  | nil => rfl
  | cons n rest ih =>
    rw [insertAll_cons]
    have hn : n ≠ q := fun he => h (by simp [he])
    rw [ih _ (fun hq => h (List.mem_cons_of_mem n hq)), dictGet_insert_ne n q v d hn]

theorem dictGet_insertAll_of_mem (names : List String) (v q : String)
    (d : List (String × String)) (h : q ∈ names) :
    dictGet q (insertAll names v d) = some v := by
  induction names generalizing d with
  | nil => simp at h
  | cons n rest ih =>
    rw [insertAll_cons]
    by_cases hr : q ∈ rest
    · exact ih _ hr
    · have hq : q = n := by
        rcases List.mem_cons.mp h with h1 | h1
        · exact h1
        · exact absurd h1 hr
      subst hq
      rw [dictGet_insertAll_of_not_mem rest v q _ hr, dictGet_insert_self]

theorem dictGet_isSome_insertAll (names : List String) (v q : String)
    (d : List (String × String)) (h : (dictGet q d).isSome) :
    (dictGet q (insertAll names v d)).isSome := by
  induction names generalizing d with
  | nil => exact h
  | cons n rest ih =>
    rw [insertAll_cons]
    exact ih _ (dictGet_isSome_insert n q v d h)

theorem dictKeys_nodup_insertAll (names : List String) (v : String)
    (d : List (String × String)) (h : (dictKeys d).Nodup) :
    (dictKeys (insertAll names v d)).Nodup := by
  induction names generalizing d with
  | nil => exact h
  | cons n rest ih =>
    rw [insertAll_cons]
    exact ih _ (dictKeys_nodup_insert n v d h)

theorem countKey_cons (k : String) (p : String × α) (d : List (String × α)) :
    countKey k (p :: d) = (if p.1 = k then 1 else 0) + countKey k d := by
  simp only [countKey, List.filter_cons]
  by_cases hp : p.1 = k
  · simp [hp, Nat.add_comm]
  · simp [hp]

theorem countKey_eq_zero_of_not_mem (k : String) (d : List (String × α))
    (h : k ∉ dictKeys d) : countKey k d = 0 := by
  induction d with
  | nil => rfl
  | cons p rest ih =>
    have hp : ¬ p.1 = k := fun he => h (by simp [dictKeys, he])
    have hr : k ∉ dictKeys rest := fun hk => h (by simp [dictKeys] at hk ⊢; exact Or.inr hk)
    rw [countKey_cons, ih hr]
    simp [hp]

theorem countKey_eq_one_of_nodup (k : String) (d : List (String × α))
    (hnd : (dictKeys d).Nodup) (h : (dictGet k d).isSome) : countKey k d = 1 := by
  induction d with
  | nil => simp [dictGet] at h
  | cons p rest ih =>
    rw [dictKeys_cons, List.nodup_cons] at hnd
    rw [countKey_cons]
    by_cases hp : p.1 = k
    · rw [countKey_eq_zero_of_not_mem k rest (hp ▸ hnd.1)]
      simp [hp]
    · simp only [dictGet, hp, if_false] at h
      rw [ih hnd.2 h]
      simp [hp]

/-- get_all_tools is the concatenation of the servers' tool lists. -/
theorem get_all_tools_eq (st : MCPClientState) :
    get_all_tools st = (st.servers.map (fun p => p.2.tools)).flatten := by
  have aux : ∀ (l : List (String × ServerConnection)) (acc : List GroqTool),
      l.foldl (fun a s => a ++ s.2.tools) acc = acc ++ (l.map (fun p => p.2.tools)).flatten := by
    intro l
    induction l with
    | nil => intro acc; simp
    | cons p rest ih => intro acc; simp [ih, List.append_assoc]
  simpa using aux st.servers []

theorem mem_get_all_tools (st : MCPClientState) (t : GroqTool)
    (h : t ∈ get_all_tools st) : ∃ p ∈ st.servers, t ∈ p.2.tools := by
  rw [get_all_tools_eq] at h
  rcases List.mem_flatten.mp h with ⟨l, hl, ht⟩
  rcases List.mem_map.mp hl with ⟨p, hp, he⟩
  exact ⟨p, hp, he ▸ ht⟩

/-- get_all_tools only reads the servers dict. -/
theorem get_all_tools_congr (st st2 : MCPClientState)
    (h : st.servers = st2.servers) : get_all_tools st = get_all_tools st2 := by
  simp [get_all_tools, h]

/-- Names advertised by a tool list, in order (line 87). -/
def toolNames (tools : List MCPTool) : List String :=
  tools.map (fun t => t.name)

/-- Groq-format view of an advertised tool list (lines 92-102). -/
def groqToolsOf (tools : List MCPTool) : List GroqTool :=
  tools.map (fun t =>
    { name := t.name, description := t.description, parameters := t.inputSchema })

/-- The connection record held for a successfully connected server. -/
def connectedServer (sid url : String) (tools : List MCPTool) : ServerConnection :=
  { server_id := sid, url := url, session_live := true,
    tools := groqToolsOf tools, tool_names := toolNames tools }

/-- Characterization of a failing connect_to_server: the transient
registry entry is deleted again (which also deletes a pre-existing entry
of the same id), the route table is untouched, the contexts entered
before the failure stay on the exit stack, and False is returned. -/
theorem connect_fail_eq (st : MCPClientState) (sid url : String) (e : Nat) :
    connect_to_server st sid url (ConnectAttempt.fail e)
      = ({ servers := dictDel sid st.servers,
           tool_to_server_map := st.tool_to_server_map,
           exit_stack := st.exit_stack ++ (connect_handles sid).take e }, false) := by
  simp [connect_to_server, dictDel_insert]

/-- Characterization of a successful connect_to_server: the server's
record is stored under its id, every advertised name is routed to it
(in order, overwriting colliding routes), both async contexts go on the
exit stack, and True is returned. -/
theorem connect_ok_eq (st : MCPClientState) (sid url : String) (tools : List MCPTool) :
    connect_to_server st sid url (ConnectAttempt.ok tools)
      = ({ servers := dictInsert sid (connectedServer sid url tools) st.servers,
           tool_to_server_map := insertAll (toolNames tools) sid st.tool_to_server_map,
           exit_stack := st.exit_stack ++ connect_handles sid }, true) := by
  simp [connect_to_server, dictInsert_insert, insertAll, toolNames, groqToolsOf,
        connectedServer]

theorem toolName_mem_of_mem_groqToolsOf (t : GroqTool) (tools : List MCPTool)
    (h : t ∈ groqToolsOf tools) : t.name ∈ toolNames tools := by
  rcases List.mem_map.mp h with ⟨mt, hmt, he⟩
  exact List.mem_map.mpr ⟨mt, hmt, by rw [← he]⟩

/-- Registry invariant: both dicts have duplicate-free keys, and the
name of every tool of every registered server has a route entry. -/
def RegistryInv (st : MCPClientState) : Prop :=
  (dictKeys st.servers).Nodup ∧ (dictKeys st.tool_to_server_map).Nodup ∧
  ∀ p ∈ st.servers, ∀ t ∈ p.2.tools, (dictGet t.name st.tool_to_server_map).isSome

theorem registryInv_empty : RegistryInv emptyClient := by
  refine ⟨?_, ?_, ?_⟩ <;> simp [emptyClient, dictKeys]

theorem registryInv_connect (st : MCPClientState) (sid url : String) (a : ConnectAttempt)
    (h : RegistryInv st) : RegistryInv (connect_to_server st sid url a).1 := by
  obtain ⟨h1, h2, h3⟩ := h
  cases a with
  | fail e =>
    rw [connect_fail_eq]
    refine ⟨dictKeys_nodup_del sid _ h1, h2, ?_⟩
    intro p hp t ht
    exact h3 p (mem_of_mem_dictDel p sid _ hp) t ht
  | ok tools =>
    rw [connect_ok_eq]
    refine ⟨dictKeys_nodup_insert sid _ _ h1, dictKeys_nodup_insertAll _ sid _ h2, ?_⟩
    intro p hp t ht
    rcases mem_of_mem_dictInsert p sid _ _ hp with he | hold
    · subst he
      simp only [connectedServer] at ht
      rw [dictGet_insertAll_of_mem _ sid _ _ (toolName_mem_of_mem_groqToolsOf t tools ht)]
      rfl
    · exact dictGet_isSome_insertAll _ sid _ _ (h3 p hold t ht)

theorem registryInv_runConnects (ops : List ConnectOp) : RegistryInv (runConnects ops) := by
  have aux : ∀ (l : List ConnectOp) (st : MCPClientState), RegistryInv st →
      RegistryInv
        (l.foldl (fun s op => (connect_to_server s op.server_id op.url op.attempt).1) st) := by
    intro l
    induction l with
    | nil => intro st h; exact h
    | cons op rest ih => intro st h; exact ih _ (registryInv_connect _ _ _ _ h)
  exact aux ops emptyClient registryInv_empty

/-! ### call_tool characterization -/

/-- When the route table maps the tool to a nonempty server id whose
connection record is present and live, call_tool forwards to that
server's remote call and post-processes its answer. -/
theorem call_tool_eq_of_routed (st : MCPClientState) (net : ToolNet)
    (tool_name : String) (args : JsonValue) (sid : String) (sv : ServerConnection)
    (hroute : dictGet tool_name st.tool_to_server_map = some sid) (hsid : sid ≠ "")
    (hsv : dictGet sid st.servers = some sv) (hlive : sv.session_live = true) :
    call_tool st net tool_name args
      = match net sid tool_name args with
        | Except.error e =>
            CallResult.error
              ("Error calling tool " ++ tool_name ++ " on server " ++ sid ++ ": " ++ e)
        | Except.ok result =>
            match result.content with
            | [] =>
                CallResult.error
                  ("Error calling tool " ++ tool_name ++ " on server " ++ sid
                    ++ ": list index out of range")
            | c :: _ => CallResult.success c.text := by
  simp only [call_tool, hroute, Option.getD_some, hsv, hlive]
  simp [hsid]

/-- When the route lookup comes back None, or comes back the empty
string (Python truthiness), call_tool reports the unknown-tool error. -/
theorem call_tool_eq_of_unrouted (st : MCPClientState) (net : ToolNet)
    (tool_name : String) (args : JsonValue)
    (h : dictGet tool_name st.tool_to_server_map = none ∨
         dictGet tool_name st.tool_to_server_map = some "") :
    call_tool st net tool_name args = CallResult.error ("Unknown tool: " ++ tool_name) := by
  simp only [call_tool]
  rcases h with h | h <;> simp [h]

/-- When the owning server's record is absent or its session is not
set, call_tool reports the not-connected error. -/
theorem call_tool_eq_of_dead (st : MCPClientState) (net : ToolNet)
    (tool_name : String) (args : JsonValue) (sid : String)
    (hroute : dictGet tool_name st.tool_to_server_map = some sid) (hsid : sid ≠ "")
    (hdead : dictGet sid st.servers = none ∨
             ∃ sv, dictGet sid st.servers = some sv ∧ sv.session_live = false) :
    call_tool st net tool_name args
      = CallResult.error ("Server " ++ sid ++ " is not connected") := by
  simp only [call_tool, hroute, Option.getD_some]
  rcases hdead with h | ⟨sv, hsv, hl⟩
  · simp [hsid, h]
  · simp [hsid, hsv, hl]

/-! ### Claim C1 -/

/-- C1 (amended).  Outcome analysis of dispatch (call_tool), for every
request and every registry state: a tool name whose route lookup yields
None or the empty endpoint id gets the error outcome with payload
exactly "Unknown tool: <name>"; a routed name whose owning endpoint is
missing or whose connection is not live gets an error outcome; a remote
call failure gets an error outcome carrying the failure's message; an
empty reply gets an error outcome carrying the IndexError message;
otherwise the outcome is success with the extracted text payload.  The
function is total, so dispatch never raises past this boundary. -/
theorem claim_C1_dispatch_outcomes (st : MCPClientState) (net : ToolNet)
    (tool_name : String) (args : JsonValue) :
    ((dictGet tool_name st.tool_to_server_map = none ∨
      dictGet tool_name st.tool_to_server_map = some "") →
        call_tool st net tool_name args
          = CallResult.error ("Unknown tool: " ++ tool_name)) ∧
    (∀ sid, dictGet tool_name st.tool_to_server_map = some sid → sid ≠ "" →
      ((dictGet sid st.servers = none ∨
        ∃ sv, dictGet sid st.servers = some sv ∧ sv.session_live = false) →
          call_tool st net tool_name args
            = CallResult.error ("Server " ++ sid ++ " is not connected")) ∧
      (∀ sv, dictGet sid st.servers = some sv → sv.session_live = true →
        (∀ e, net sid tool_name args = Except.error e →
          call_tool st net tool_name args
            = CallResult.error
                ("Error calling tool " ++ tool_name ++ " on server " ++ sid ++ ": " ++ e)) ∧
        (∀ reply, net sid tool_name args = Except.ok reply → reply.content = [] →
          call_tool st net tool_name args
            = CallResult.error
                ("Error calling tool " ++ tool_name ++ " on server " ++ sid
                  ++ ": list index out of range")) ∧
        (∀ reply c rest, net sid tool_name args = Except.ok reply →
          reply.content = c :: rest →
          call_tool st net tool_name args = CallResult.success c.text))) := by
  refine ⟨fun h => call_tool_eq_of_unrouted st net tool_name args h, ?_⟩
  intro sid hroute hsid
  refine ⟨fun hdead => call_tool_eq_of_dead st net tool_name args sid hroute hsid hdead, ?_⟩
  intro sv hsv hlive
  refine ⟨?_, ?_, ?_⟩
  · intro e hnet
    rw [call_tool_eq_of_routed st net tool_name args sid sv hroute hsid hsv hlive, hnet]
  · intro reply hnet hempty
    rw [call_tool_eq_of_routed st net tool_name args sid sv hroute hsid hsv hlive, hnet]
    simp [hempty]
  · intro reply c rest hnet hcons
    rw [call_tool_eq_of_routed st net tool_name args sid sv hroute hsid hsv hlive, hnet]
    simp [hcons]

/-- A registry with one server s1 exposing the tool add. -/
def stOneServer : MCPClientState :=
  (connect_to_server emptyClient "s1" "http://localhost:8001/sse"
    (ConnectAttempt.ok [{ name := "add", description := "adds two numbers",
                          inputSchema := "schema" }])).1

/-- A remote side whose every tool call answers with the single text
content "9". -/
def netNine : ToolNet := fun _ _ _ =>
  Except.ok { content := [{ text := "9" }] }

/-- Witness for C1: on the one-server registry, dispatching add with a
succeeding remote call yields the success outcome with the extracted
text. -/
theorem claim_C1_witness :
    call_tool stOneServer netNine "add" JsonValue.null = CallResult.success "9" :=
  (((claim_C1_dispatch_outcomes stOneServer netNine "add" JsonValue.null).2
      "s1" (by decide) (by decide)).2
      (connectedServer "s1" "http://localhost:8001/sse"
        [{ name := "add", description := "adds two numbers", inputSchema := "schema" }])
      (by decide) (by decide)).2.2
    { content := [{ text := "9" }] } { text := "9" } [] rfl rfl

/-- A registry obtained by successfully connecting a server whose id is
the empty string and which advertises the tool probe. -/
def stEmptyId : MCPClientState :=
  (connect_to_server emptyClient "" "http://localhost:9000/sse"
    (ConnectAttempt.ok [{ name := "probe", description := "d", inputSchema := "s" }])).1

/-- A remote side whose every tool call answers with the single text
content "hi". -/
def netHi : ToolNet := fun _ _ _ =>
  Except.ok { content := [{ text := "hi" }] }

/-- Counterexample to C1 as stated: the tool probe is present in the
route table (owned by the endpoint with id ""), that endpoint's record
exists and its connection is live, and the remote call would succeed
with text "hi"; the claim then promises a success outcome, but the code
(if not server_id:) treats the empty owning id as an unknown tool and
returns the error outcome instead. -/
theorem claim_C1_counterexample :
    dictGet "probe" stEmptyId.tool_to_server_map = some "" ∧
    dictGet "" stEmptyId.servers
      = some (connectedServer "" "http://localhost:9000/sse"
          [{ name := "probe", description := "d", inputSchema := "s" }]) ∧
    (connectedServer "" "http://localhost:9000/sse"
      [{ name := "probe", description := "d", inputSchema := "s" }]).session_live = true ∧
    netHi "" "probe" JsonValue.null = Except.ok { content := [{ text := "hi" }] } ∧
    call_tool stEmptyId netHi "probe" JsonValue.null ≠ CallResult.success "hi" ∧
    call_tool stEmptyId netHi "probe" JsonValue.null
      = CallResult.error "Unknown tool: probe" :=
  ⟨by decide, by decide, by decide, rfl, by decide, by decide⟩

/-! ### Claim C10 -/

/-- C10.  A dispatch whose remote call completes but whose reply has an
empty content list produces an error-status outcome (the extraction
result.content[0].text raises IndexError inside the try block and is
caught), not a success outcome and not an unhandled exception. -/
theorem claim_C10_empty_reply_is_error (st : MCPClientState) (net : ToolNet)
    (tool_name : String) (args : JsonValue) (sid : String) (sv : ServerConnection)
    (hroute : dictGet tool_name st.tool_to_server_map = some sid) (hsid : sid ≠ "")
    (hsv : dictGet sid st.servers = some sv) (hlive : sv.session_live = true)
    (hnet : net sid tool_name args = Except.ok { content := [] }) :
    call_tool st net tool_name args
      = CallResult.error
          ("Error calling tool " ++ tool_name ++ " on server " ++ sid
            ++ ": list index out of range") := by
  rw [call_tool_eq_of_routed st net tool_name args sid sv hroute hsid hsv hlive, hnet]

/-- A remote side whose every tool call completes with an empty content
list. -/
def netEmptyReply : ToolNet := fun _ _ _ =>
  Except.ok { content := [] }

/-- Witness for C10: on the one-server registry, dispatching add against
a remote call that completes with an empty content list yields the
error outcome. -/
theorem claim_C10_witness :
    call_tool stOneServer netEmptyReply "add" JsonValue.null
      = CallResult.error
          ("Error calling tool add on server s1: list index out of range") :=
  claim_C10_empty_reply_is_error stOneServer netEmptyReply "add" JsonValue.null
    "s1"
    (connectedServer "s1" "http://localhost:8001/sse"
      [{ name := "add", description := "adds two numbers", inputSchema := "schema" }])
    (by decide) (by decide) (by decide) (by decide) rfl

/-! ### Claim C2 -/

/-- C2 (amended).  A failing connect for an endpoint id that is NOT
already registered leaves the registry's endpoint table, aggregated
catalog and route table exactly as they were (no partial registrations),
and the call reports failure.  (When the id is already registered, the
failure path deletes the pre-existing entry instead; see the
counterexample.) -/
theorem claim_C2_connect_fail_rollback (st : MCPClientState) (sid url : String) (e : Nat)
    (hfresh : dictGet sid st.servers = none) :
    (connect_to_server st sid url (ConnectAttempt.fail e)).1.servers = st.servers ∧
    (connect_to_server st sid url (ConnectAttempt.fail e)).1.tool_to_server_map
      = st.tool_to_server_map ∧
    get_all_tools (connect_to_server st sid url (ConnectAttempt.fail e)).1
      = get_all_tools st ∧
    (connect_to_server st sid url (ConnectAttempt.fail e)).2 = false := by
  have hs : (connect_to_server st sid url (ConnectAttempt.fail e)).1.servers = st.servers := by
    rw [connect_fail_eq]
    exact dictDel_of_get_none sid st.servers hfresh
  refine ⟨hs, ?_, get_all_tools_congr _ _ hs, ?_⟩
  · rw [connect_fail_eq]
  · rw [connect_fail_eq]

/-- Witness for C2: connecting a fresh endpoint x that fails after one
entered context changes neither the servers dict nor the route table nor
the catalog of the one-server registry. -/
theorem claim_C2_witness :
    dictGet "x" stOneServer.servers = none ∧
    (connect_to_server stOneServer "x" "http://localhost:8002/sse"
      (ConnectAttempt.fail 1)).1.servers = stOneServer.servers ∧
    (connect_to_server stOneServer "x" "http://localhost:8002/sse"
      (ConnectAttempt.fail 1)).1.tool_to_server_map = stOneServer.tool_to_server_map ∧
    get_all_tools (connect_to_server stOneServer "x" "http://localhost:8002/sse"
      (ConnectAttempt.fail 1)).1 = get_all_tools stOneServer ∧
    (connect_to_server stOneServer "x" "http://localhost:8002/sse"
      (ConnectAttempt.fail 1)).2 = false :=
  ⟨by decide,
   claim_C2_connect_fail_rollback stOneServer "x" "http://localhost:8002/sse" 1 (by decide)⟩

/-- The one-server registry for endpoint E advertising alpha. -/
def stE : MCPClientState :=
  (connect_to_server emptyClient "E" "http://localhost:8001/sse"
    (ConnectAttempt.ok [{ name := "alpha", description := "d", inputSchema := "s" }])).1

/-- stE after a failing reconnect of the same endpoint E. -/
def stEFail : MCPClientState :=
  (connect_to_server stE "E" "http://localhost:8001/sse" (ConnectAttempt.fail 0)).1

/-- Counterexample to C2 as stated: endpoint E is connected with tool
alpha; a later failing connect for the same id E deletes the
pre-existing registration, so the aggregated catalog is not what it was
before the call (alpha's descriptor is gone) even though the route
table still holds the now-stale route for alpha. -/
theorem claim_C2_counterexample :
    (dictGet "E" stE.servers).isSome = true ∧
    get_all_tools stE
      = [{ name := "alpha", description := "d", parameters := "s" }] ∧
    dictGet "E" stEFail.servers = none ∧
    get_all_tools stEFail = [] ∧
    get_all_tools stEFail ≠ get_all_tools stE ∧
    dictGet "alpha" stEFail.tool_to_server_map = some "E" :=
  ⟨by decide, by decide, by decide, by decide, by decide, by decide⟩

/-! ### Claim C9 -/

/-- C9 (amended).  cleanup closes the exit stack, releasing every
entered connection context, and leaves the registry's endpoint table,
aggregated catalog and route table exactly as they were: they are NOT
cleared. -/
theorem claim_C9_cleanup_releases_but_keeps_tables (st : MCPClientState) :
    (cleanup st).exit_stack = [] ∧
    (cleanup st).servers = st.servers ∧
    (cleanup st).tool_to_server_map = st.tool_to_server_map ∧
    get_all_tools (cleanup st) = get_all_tools st :=
  ⟨rfl, rfl, rfl, rfl⟩

/-- Counterexample to C9 as stated: after cleanup of the one-server
registry the endpoint table, the catalog and the route table are all
still nonempty, while the claim says they are empty. -/
theorem claim_C9_counterexample :
    (cleanup stOneServer).exit_stack = [] ∧
    (cleanup stOneServer).servers ≠ [] ∧
    (cleanup stOneServer).tool_to_server_map ≠ [] ∧
    get_all_tools (cleanup stOneServer) ≠ [] :=
  ⟨by decide, by decide, by decide, by decide⟩

/-! ### Claim C6 -/

/-- C6 (amended).  After any sequence of connect operations from a
fresh client, every tool name present in the aggregated catalog has
exactly one route-table entry.  (The second half of the claim — that
routes are rebuilt on reconnect so that no stale route survives — fails;
see the counterexample.) -/
theorem claim_C6_catalog_has_unique_route (ops : List ConnectOp) (t : GroqTool)
    (h : t ∈ get_all_tools (runConnects ops)) :
    countKey t.name (runConnects ops).tool_to_server_map = 1 := by
  obtain ⟨h1, h2, h3⟩ := registryInv_runConnects ops
  rcases mem_get_all_tools _ t h with ⟨p, hp, ht⟩
  exact countKey_eq_one_of_nodup _ _ h2 (h3 p hp t ht)

/-- Connect operations: endpoint E first advertises a, then reconnects
advertising only b. -/
def reconnectOps : List ConnectOp :=
  [{ server_id := "E", url := "http://localhost:8001/sse",
     attempt := ConnectAttempt.ok [{ name := "a", description := "d", inputSchema := "s" }] },
   { server_id := "E", url := "http://localhost:8001/sse",
     attempt := ConnectAttempt.ok [{ name := "b", description := "d", inputSchema := "s" }] }]

/-- Witness for C6: in the reconnect scenario the catalog holds the
descriptor of b, and b has exactly one route entry. -/
theorem claim_C6_witness :
    { name := "b", description := "d", parameters := "s" } ∈
      get_all_tools (runConnects reconnectOps) ∧
    countKey "b" (runConnects reconnectOps).tool_to_server_map = 1 :=
  ⟨by decide,
   claim_C6_catalog_has_unique_route reconnectOps
     { name := "b", description := "d", parameters := "s" } (by decide)⟩

/-- Counterexample to C6 as stated: after endpoint E reconnects with
tool b only, the route table still maps the old name a to E (routes are
only ever inserted, never rebuilt), although E no longer advertises a —
and no tool named a is in the catalog at all. -/
theorem claim_C6_counterexample :
    dictGet "a" (runConnects reconnectOps).tool_to_server_map = some "E" ∧
    dictGet "E" (runConnects reconnectOps).servers
      = some (connectedServer "E" "http://localhost:8001/sse"
          [{ name := "b", description := "d", inputSchema := "s" }]) ∧
    "a" ∉ (connectedServer "E" "http://localhost:8001/sse"
          [{ name := "b", description := "d", inputSchema := "s" }]).tool_names ∧
    "a" ∉ (get_all_tools (runConnects reconnectOps)).map (fun t => t.name) :=
  ⟨by decide, by decide, by decide, by decide⟩

/-! ### Claim C7 -/

/-- C7 (amended).  If two endpoints connect successfully in sequence and
the second advertises a tool name n (possibly also advertised by the
first), the route table afterwards maps n to the second (last-connected)
endpoint, and — provided that endpoint's identifier is nonempty —
dispatch of n is forwarded to it: the outcome is the success text of ITS
remote reply.  (An empty identifier falls into the unknown-tool path of
dispatch; see the counterexample and C1.) -/
theorem claim_C7_last_registration_wins (st : MCPClientState)
    (idA uA : String) (tsA : List MCPTool) (idB uB : String) (tsB : List MCPTool)
    (n : String) (hmem : n ∈ toolNames tsB) :
    dictGet n ((connect_to_server (connect_to_server st idA uA (ConnectAttempt.ok tsA)).1
        idB uB (ConnectAttempt.ok tsB)).1).tool_to_server_map = some idB ∧
    (idB ≠ "" → ∀ (net : ToolNet) (args : JsonValue) (reply : ToolCallReply)
        (c : TextContent) (rest : List TextContent),
      net idB n args = Except.ok reply → reply.content = c :: rest →
      call_tool ((connect_to_server (connect_to_server st idA uA (ConnectAttempt.ok tsA)).1
          idB uB (ConnectAttempt.ok tsB)).1) net n args = CallResult.success c.text) := by
  rw [connect_ok_eq, connect_ok_eq]
  have hroute : dictGet n (insertAll (toolNames tsB) idB
      (insertAll (toolNames tsA) idA st.tool_to_server_map)) = some idB :=
    dictGet_insertAll_of_mem _ idB n _ hmem
  refine ⟨hroute, ?_⟩
  intro hB net args reply c rest hnet hcons
  have hsv : dictGet idB (dictInsert idB (connectedServer idB uB tsB)
      (dictInsert idA (connectedServer idA uA tsA) st.servers))
      = some (connectedServer idB uB tsB) := dictGet_insert_self idB _ _
  rw [call_tool_eq_of_routed _ net n args idB (connectedServer idB uB tsB)
      hroute hB hsv rfl, hnet]
  simp [hcons]

/-- Two endpoints A and B, both advertising search, connected in that
order. -/
def stAB : MCPClientState :=
  (connect_to_server
    (connect_to_server emptyClient "A" "http://localhost:8001/sse"
      (ConnectAttempt.ok [{ name := "search", description := "d", inputSchema := "s" }])).1
    "B" "http://localhost:8002/sse"
    (ConnectAttempt.ok [{ name := "search", description := "d", inputSchema := "s" }])).1

/-- A remote side that answers fromB on server B and fromA elsewhere. -/
def netAB : ToolNet := fun sid _ _ =>
  if sid = "B" then Except.ok { content := [{ text := "fromB" }] }
  else Except.ok { content := [{ text := "fromA" }] }

/-- Witness for C7: with A and B both advertising search, the route
table maps search to B (connected last) and dispatch returns B's
answer. -/
theorem claim_C7_witness :
    dictGet "search" stAB.tool_to_server_map = some "B" ∧
    call_tool stAB netAB "search" JsonValue.null = CallResult.success "fromB" :=
  ⟨(claim_C7_last_registration_wins emptyClient
      "A" "http://localhost:8001/sse" [{ name := "search", description := "d", inputSchema := "s" }]
      "B" "http://localhost:8002/sse" [{ name := "search", description := "d", inputSchema := "s" }]
      "search" (by decide)).1,
   (claim_C7_last_registration_wins emptyClient
      "A" "http://localhost:8001/sse" [{ name := "search", description := "d", inputSchema := "s" }]
      "B" "http://localhost:8002/sse" [{ name := "search", description := "d", inputSchema := "s" }]
      "search" (by decide)).2 (by decide) netAB JsonValue.null
      { content := [{ text := "fromB" }] } { text := "fromB" } [] rfl rfl⟩

/-- Endpoint A and then an endpoint with the empty id, both advertising
search. -/
def stAEmpty : MCPClientState :=
  (connect_to_server
    (connect_to_server emptyClient "A" "http://localhost:8001/sse"
      (ConnectAttempt.ok [{ name := "search", description := "d", inputSchema := "s" }])).1
    "" "http://localhost:8002/sse"
    (ConnectAttempt.ok [{ name := "search", description := "d", inputSchema := "s" }])).1

/-- Counterexample to C7 as stated: when the last-connected endpoint has
the empty identifier, the route table does map search to it, but
dispatch is NOT forwarded there — the truthiness check of call_tool
returns the unknown-tool error although the endpoint is registered and
live and its remote call would answer. -/
theorem claim_C7_counterexample :
    dictGet "search" stAEmpty.tool_to_server_map = some "" ∧
    dictGet "" stAEmpty.servers
      = some (connectedServer "" "http://localhost:8002/sse"
          [{ name := "search", description := "d", inputSchema := "s" }]) ∧
    netAB "" "search" JsonValue.null = Except.ok { content := [{ text := "fromA" }] } ∧
    call_tool stAEmpty netAB "search" JsonValue.null
      = CallResult.error "Unknown tool: search" ∧
    (∀ c, call_tool stAEmpty netAB "search" JsonValue.null ≠ CallResult.success c) := by
  have he : call_tool stAEmpty netAB "search" JsonValue.null
      = CallResult.error "Unknown tool: search" := by decide
  refine ⟨by decide, by decide, rfl, he, ?_⟩
  intro c h
  rw [he] at h
  exact CallResult.noConfusion h

/-! ### Orchestrator characterization -/

/-- The assistant message of the first chat-completion call of a query. -/
def firstResponse (st : MCPClientState) (llm : LLM) (q : String) : AssistantMessage :=
  llm [Msg.user q] (get_all_tools st) "auto"

/-- Transcript after dispatch round one: user message, first assistant
message, then its tool results in request order. -/
def messagesAfterRound1 (st : MCPClientState) (llm : LLM) (jloads : JLoads)
    (net : ToolNet) (q : String) : List Msg :=
  [Msg.user q, assistant_msg_of (firstResponse st llm q)]
    ++ dispatch_round st net jloads (firstResponse st llm q).tool_calls

/-- The assistant message of the second chat-completion call. -/
def secondResponse (st : MCPClientState) (llm : LLM) (jloads : JLoads)
    (net : ToolNet) (q : String) : AssistantMessage :=
  llm (messagesAfterRound1 st llm jloads net q) (get_all_tools st) "auto"

/-- Transcript after dispatch round two: the follow-up assistant message
and its tool results are appended. -/
def messagesAfterRound2 (st : MCPClientState) (llm : LLM) (jloads : JLoads)
    (net : ToolNet) (q : String) : List Msg :=
  messagesAfterRound1 st llm jloads net q
    ++ [Msg.assistant (secondResponse st llm jloads net q).role
          (some (py_str_or (secondResponse st llm jloads net q).content ""))
          (secondResponse st llm jloads net q).tool_calls]
    ++ dispatch_round st net jloads (secondResponse st llm jloads net q).tool_calls

/-- The assistant message of the final, tool-choice "none",
chat-completion call. -/
def thirdResponse (st : MCPClientState) (llm : LLM) (jloads : JLoads)
    (net : ToolNet) (q : String) : AssistantMessage :=
  llm (messagesAfterRound2 st llm jloads net q) (get_all_tools st) "none"

theorem process_query_traced_no_servers (st : MCPClientState) (llm : LLM)
    (jloads : JLoads) (net : ToolNet) (q : String) (hs : st.servers = []) :
    process_query_traced st llm jloads net q
      = { result := Except.error "No servers connected", model_calls := [],
          final_messages := [], rounds := 0 } := by
  simp [process_query_traced, hs]

theorem process_query_traced_direct (st : MCPClientState) (llm : LLM)
    (jloads : JLoads) (net : ToolNet) (q : String) (hs : ¬ st.servers = [])
    (h1 : (firstResponse st llm q).tool_calls = []) :
    process_query_traced st llm jloads net q
      = { result := Except.ok (firstResponse st llm q).content,
          model_calls := [{ messages := [Msg.user q], tools := get_all_tools st,
                            tool_choice := "auto" }],
          final_messages := [Msg.user q, assistant_msg_of (firstResponse st llm q)],
          rounds := 0 } := by
  simp only [firstResponse] at h1 ⊢
  simp [process_query_traced, hs, h1]

theorem process_query_traced_one_round (st : MCPClientState) (llm : LLM)
    (jloads : JLoads) (net : ToolNet) (q : String) (hs : ¬ st.servers = [])
    (h1 : ¬ (firstResponse st llm q).tool_calls = [])
    (h2 : (secondResponse st llm jloads net q).tool_calls = []) :
    process_query_traced st llm jloads net q
      = { result := Except.ok (secondResponse st llm jloads net q).content,
          model_calls := [{ messages := [Msg.user q], tools := get_all_tools st,
                            tool_choice := "auto" },
                          { messages := messagesAfterRound1 st llm jloads net q,
                            tools := get_all_tools st, tool_choice := "auto" }],
          final_messages := messagesAfterRound1 st llm jloads net q,
          rounds := 1 } := by
  simp only [secondResponse, messagesAfterRound1, firstResponse] at h1 h2 ⊢
  simp only [List.cons_append, List.nil_append] at h2
  simp [process_query_traced, hs, h1, h2]

theorem process_query_traced_two_rounds (st : MCPClientState) (llm : LLM)
    (jloads : JLoads) (net : ToolNet) (q : String) (hs : ¬ st.servers = [])
    (h1 : ¬ (firstResponse st llm q).tool_calls = [])
    (h2 : ¬ (secondResponse st llm jloads net q).tool_calls = []) :
    process_query_traced st llm jloads net q
      = { result := Except.ok (thirdResponse st llm jloads net q).content,
          model_calls := [{ messages := [Msg.user q], tools := get_all_tools st,
                            tool_choice := "auto" },
                          { messages := messagesAfterRound1 st llm jloads net q,
                            tools := get_all_tools st, tool_choice := "auto" },
                          { messages := messagesAfterRound2 st llm jloads net q,
                            tools := get_all_tools st, tool_choice := "none" }],
          final_messages := messagesAfterRound2 st llm jloads net q,
          rounds := 2 } := by
  simp only [thirdResponse, messagesAfterRound2, secondResponse, messagesAfterRound1,
    firstResponse] at h1 h2 ⊢
  simp only [List.cons_append, List.nil_append] at h2
  simp [process_query_traced, hs, h1, h2, List.append_assoc]

/-! ### Dispatch round lemmas -/

/-- Correlation id carried by a message, when it is a tool-result
message. -/
def msg_tool_id : Msg → Option String
  | Msg.tool cid _ => some cid
  | _ => none

theorem handle_tool_call_id (st : MCPClientState) (net : ToolNet) (jloads : JLoads)
    (tc : ToolCall) : msg_tool_id (handle_tool_call st net jloads tc) = some tc.id := by
  unfold handle_tool_call
  cases h : jloads tc.function.arguments with
  | error e => rfl
  | ok args =>
    cases h2 : call_tool st net tc.function.name args with
    | success c => simp [h2, msg_tool_id]
    | error m => simp [h2, msg_tool_id]

theorem handle_tool_call_decode_fail (st : MCPClientState) (net : ToolNet)
    (jloads : JLoads) (tc : ToolCall) (e : String)
    (h : jloads tc.function.arguments = Except.error e) :
    handle_tool_call st net jloads tc = Msg.tool tc.id (dumps_status_error e) := by
  unfold handle_tool_call
  rw [h]

theorem handle_tool_call_dispatch_error (st : MCPClientState) (net : ToolNet)
    (jloads : JLoads) (tc : ToolCall) (args : JsonValue) (m : String)
    (h : jloads tc.function.arguments = Except.ok args)
    (h2 : call_tool st net tc.function.name args = CallResult.error m) :
    handle_tool_call st net jloads tc = Msg.tool tc.id (dumps_status_error m) := by
  unfold handle_tool_call
  rw [h]
  simp [h2]

theorem handle_tool_call_success (st : MCPClientState) (net : ToolNet)
    (jloads : JLoads) (tc : ToolCall) (args : JsonValue) (c : String)
    (h : jloads tc.function.arguments = Except.ok args)
    (h2 : call_tool st net tc.function.name args = CallResult.success c) :
    handle_tool_call st net jloads tc = Msg.tool tc.id c := by
  unfold handle_tool_call
  rw [h]
  simp [h2]

theorem dispatch_round_length (st : MCPClientState) (net : ToolNet) (jloads : JLoads)
    (tcs : List ToolCall) : (dispatch_round st net jloads tcs).length = tcs.length := by
  simp [dispatch_round]

theorem dispatch_round_get (st : MCPClientState) (net : ToolNet) (jloads : JLoads)
    (tcs : List ToolCall) (i : Nat) :
    (dispatch_round st net jloads tcs)[i]?
      = tcs[i]?.map (handle_tool_call st net jloads) := by
  simp [dispatch_round]

theorem dispatch_round_ids (st : MCPClientState) (net : ToolNet) (jloads : JLoads)
    (tcs : List ToolCall) (i : Nat) :
    ((dispatch_round st net jloads tcs)[i]?).bind msg_tool_id
      = tcs[i]?.map ToolCall.id := by
  rw [dispatch_round_get]
  cases h : tcs[i]? with
  | none => rfl
  | some tc => simp [handle_tool_call_id]

theorem dispatch_round_mem_is_tool (st : MCPClientState) (net : ToolNet)
    (jloads : JLoads) (tcs : List ToolCall) (m : Msg)
    (h : m ∈ dispatch_round st net jloads tcs) : ∃ cid c, m = Msg.tool cid c := by
  rcases List.mem_map.mp h with ⟨tc, htc, he⟩
  have hid : msg_tool_id m = some tc.id := by
    rw [← he]
    exact handle_tool_call_id st net jloads tc
  cases m with
  | user c => exact absurd hid (by simp [msg_tool_id])
  | assistant r c t => exact absurd hid (by simp [msg_tool_id])
  | tool cid c => exact ⟨cid, c, rfl⟩

/-! ### Claim C4 -/

/-- C4.  Every dispatch round appends exactly one tool-result message
per request — the round's message list has the same length as the
request list, its i-th element is a tool-result message carrying the
i-th request's correlation id — and the second chat-completion call of
process_query sees the transcript with round one's results appended in
exactly that order after the user and assistant messages. -/
theorem claim_C4_transcript_order (st : MCPClientState) (llm : LLM) (jloads : JLoads)
    (net : ToolNet) (q : String) (tcs : List ToolCall)
    (hs : st.servers ≠ [])
    (h1 : (firstResponse st llm q).tool_calls ≠ []) :
    (dispatch_round st net jloads tcs).length = tcs.length ∧
    (∀ i : Nat, ((dispatch_round st net jloads tcs)[i]?).bind msg_tool_id
        = tcs[i]?.map ToolCall.id) ∧
    (∀ m ∈ dispatch_round st net jloads tcs, ∃ cid c, m = Msg.tool cid c) ∧
    ((process_query_traced st llm jloads net q).model_calls[1]?
      = some { messages := [Msg.user q, assistant_msg_of (firstResponse st llm q)]
                 ++ dispatch_round st net jloads (firstResponse st llm q).tool_calls,
               tools := get_all_tools st, tool_choice := "auto" }) := by
  refine ⟨dispatch_round_length st net jloads tcs,
          fun i => dispatch_round_ids st net jloads tcs i,
          fun m hm => dispatch_round_mem_is_tool st net jloads tcs m hm, ?_⟩
  by_cases h2 : (secondResponse st llm jloads net q).tool_calls = []
  · rw [process_query_traced_one_round st llm jloads net q hs h1 h2]
    simp [messagesAfterRound1]
  · rw [process_query_traced_two_rounds st llm jloads net q hs h1 h2]
    simp [messagesAfterRound1]

/-- A model that requests one tool call (add, empty argument object) on
every response. -/
def llmAlwaysTool : LLM := fun _ _ _ =>
  { role := "assistant", content := some "calling the add tool",
    tool_calls := [{ id := "call_1",
                     function := { name := "add", arguments := "\x7b\x7d" } }] }

/-- A decoder that accepts the empty JSON object text and rejects
everything else with the CPython json error message. -/
def jloadsStrict : JLoads := fun s =>
  if s = "\x7b\x7d" then Except.ok (JsonValue.obj [])
  else Except.error "Expecting value: line 1 column 1 (char 0)"

/-- Two requests: a well-formed call to add and a call to a missing
tool with undecodable arguments. -/
def twoCalls : List ToolCall :=
  [{ id := "call_1", function := { name := "add", arguments := "\x7b\x7d" } },
   { id := "call_2", function := { name := "missing", arguments := "bad json" } }]

/-- Witness for C4: a two-request round on the one-server registry
produces two tool messages whose ids are call_1 and call_2 in order,
and the transcript of the second model call carries round one's
results. -/
theorem claim_C4_witness :
    stOneServer.servers ≠ [] ∧
    (firstResponse stOneServer llmAlwaysTool "what is 2+7").tool_calls ≠ [] ∧
    ((dispatch_round stOneServer netNine jloadsStrict twoCalls).length = twoCalls.length ∧
     (∀ i : Nat, ((dispatch_round stOneServer netNine jloadsStrict twoCalls)[i]?).bind msg_tool_id
        = twoCalls[i]?.map ToolCall.id) ∧
     (∀ m ∈ dispatch_round stOneServer netNine jloadsStrict twoCalls,
        ∃ cid c, m = Msg.tool cid c) ∧
     ((process_query_traced stOneServer llmAlwaysTool jloadsStrict netNine
          "what is 2+7").model_calls[1]?
       = some { messages :=
                  [Msg.user "what is 2+7",
                   assistant_msg_of (firstResponse stOneServer llmAlwaysTool "what is 2+7")]
                  ++ dispatch_round stOneServer netNine jloadsStrict
                      (firstResponse stOneServer llmAlwaysTool "what is 2+7").tool_calls,
                tools := get_all_tools stOneServer, tool_choice := "auto" })) :=
  ⟨by decide, by decide,
   claim_C4_transcript_order stOneServer llmAlwaysTool jloadsStrict netNine
     "what is 2+7" twoCalls (by decide) (by decide)⟩

/-! ### Claim C5 -/

/-- C5.  Failures while handling one request of a round are absorbed:
the round always yields one message per request (no abort, no
propagated exception — the loop is total and its length never
shrinks); an argument-decode failure yields an error tool message whose
content does not depend on the registry or remote side at all (the same
message results for every remote behavior, i.e. the registry is not
contacted); a dispatch error (unknown tool, dead endpoint, remote
failure — every CallResult.error) yields an error tool message; a
successful dispatch yields the text content.  All are appended at the
request's position. -/
theorem claim_C5_failures_absorbed (st : MCPClientState) (net : ToolNet)
    (jloads : JLoads) (tcs : List ToolCall) (i : Nat) (tc : ToolCall)
    (h : tcs[i]? = some tc) :
    (dispatch_round st net jloads tcs).length = tcs.length ∧
    (∀ e, jloads tc.function.arguments = Except.error e →
      ∀ net2 : ToolNet,
        (dispatch_round st net2 jloads tcs)[i]?
          = some (Msg.tool tc.id (dumps_status_error e))) ∧
    (∀ args m, jloads tc.function.arguments = Except.ok args →
      call_tool st net tc.function.name args = CallResult.error m →
      (dispatch_round st net jloads tcs)[i]?
        = some (Msg.tool tc.id (dumps_status_error m))) ∧
    (∀ args c, jloads tc.function.arguments = Except.ok args →
      call_tool st net tc.function.name args = CallResult.success c →
      (dispatch_round st net jloads tcs)[i]? = some (Msg.tool tc.id c)) := by
  refine ⟨dispatch_round_length st net jloads tcs, ?_, ?_, ?_⟩
  · intro e he net2
    rw [dispatch_round_get, h]
    simp [handle_tool_call_decode_fail st net2 jloads tc e he]
  · intro args m hok herr
    rw [dispatch_round_get, h]
    simp [handle_tool_call_dispatch_error st net jloads tc args m hok herr]
  · intro args c hok hsucc
    rw [dispatch_round_get, h]
    simp [handle_tool_call_success st net jloads tc args c hok hsucc]

/-- Witness for C5: in the two-request round, the second request's
arguments fail to decode and its tool is unknown anyway; the round still
has two messages and position one carries the error content for
call_2. -/
theorem claim_C5_witness :
    twoCalls[1]? = some { id := "call_2",
                          function := { name := "missing", arguments := "bad json" } } ∧
    jloadsStrict "bad json" = Except.error "Expecting value: line 1 column 1 (char 0)" ∧
    (dispatch_round stOneServer netNine jloadsStrict twoCalls).length = 2 ∧
    (dispatch_round stOneServer netNine jloadsStrict twoCalls)[1]?
      = some (Msg.tool "call_2"
          (dumps_status_error "Expecting value: line 1 column 1 (char 0)")) := by
  have h := claim_C5_failures_absorbed stOneServer netNine jloadsStrict twoCalls 1
    { id := "call_2", function := { name := "missing", arguments := "bad json" } } (by decide)
  exact ⟨by decide, rfl, h.1,
         h.2.1 "Expecting value: line 1 column 1 (char 0)" rfl netNine⟩

/-! ### Claim C3 -/

/-- C3.  process_query performs at most 2 dispatch rounds and makes at
most 3 chat-completion calls; with a connected registry it always
terminates with a returned answer; and if the model requests tool calls
on every response (the pathological case), exactly two dispatch rounds
run, the three calls use tool choices auto, auto, none — the final call
is forced to "none" — and the returned answer is that final call's
content. -/
theorem claim_C3_round_cap (st : MCPClientState) (llm : LLM) (jloads : JLoads)
    (net : ToolNet) (q : String) :
    (process_query_traced st llm jloads net q).rounds ≤ 2 ∧
    (process_query_traced st llm jloads net q).model_calls.length ≤ 3 ∧
    (st.servers ≠ [] →
      ∃ c, (process_query_traced st llm jloads net q).result = Except.ok c) ∧
    (st.servers ≠ [] → (∀ ms ts tcc, (llm ms ts tcc).tool_calls ≠ []) →
      (process_query_traced st llm jloads net q).rounds = 2 ∧
      (process_query_traced st llm jloads net q).model_calls.map
          (fun c => c.tool_choice) = ["auto", "auto", "none"] ∧
      (process_query_traced st llm jloads net q).result
        = Except.ok (thirdResponse st llm jloads net q).content) := by
  by_cases hs : st.servers = []
  · rw [process_query_traced_no_servers st llm jloads net q hs]
    exact ⟨by simp, by simp, fun h => absurd hs h, fun h => absurd hs h⟩
  · by_cases h1 : (firstResponse st llm q).tool_calls = []
    · rw [process_query_traced_direct st llm jloads net q hs h1]
      refine ⟨by simp, by simp, fun _ => ⟨_, rfl⟩, ?_⟩
      intro _ hp
      exact absurd h1 (hp _ _ _)
    · by_cases h2 : (secondResponse st llm jloads net q).tool_calls = []
      · rw [process_query_traced_one_round st llm jloads net q hs h1 h2]
        refine ⟨by simp, by simp, fun _ => ⟨_, rfl⟩, ?_⟩
        intro _ hp
        exact absurd h2 (hp _ _ _)
      · rw [process_query_traced_two_rounds st llm jloads net q hs h1 h2]
        exact ⟨by simp, by simp, fun _ => ⟨_, rfl⟩, fun _ _ => ⟨rfl, rfl, rfl⟩⟩

/-- Witness for C3: with the always-requesting model on the one-server
registry, the run uses exactly two dispatch rounds, its three calls end
with a forced "none", and an answer is returned. -/
theorem claim_C3_witness :
    stOneServer.servers ≠ [] ∧
    (∀ ms ts tcc, (llmAlwaysTool ms ts tcc).tool_calls ≠ []) ∧
    (process_query_traced stOneServer llmAlwaysTool jloadsStrict netNine
        "what is 2+7").rounds = 2 ∧
    (process_query_traced stOneServer llmAlwaysTool jloadsStrict netNine
        "what is 2+7").model_calls.map (fun c => c.tool_choice)
      = ["auto", "auto", "none"] := by
  have hp : ∀ ms ts tcc, (llmAlwaysTool ms ts tcc).tool_calls ≠ [] := by
    intro ms ts tcc
    simp [llmAlwaysTool]
  have h := (claim_C3_round_cap stOneServer llmAlwaysTool jloadsStrict netNine
    "what is 2+7").2.2.2 (by decide) hp
  exact ⟨by decide, hp, h.1, h.2.1⟩

/-! ### Claim C8 -/

/-- C8 (amended).  With at least one connected endpoint, if the model's
first response to the user query carries no tool-call requests,
process_query returns that response's content unchanged as the query's
answer.  (With zero connected endpoints the claim fails: process_query
raises ValueError instead of calling the model; see the
counterexample.) -/
theorem claim_C8_direct_answer (st : MCPClientState) (llm : LLM) (jloads : JLoads)
    (net : ToolNet) (q : String) (hs : st.servers ≠ [])
    (h1 : (firstResponse st llm q).tool_calls = []) :
    process_query st llm jloads net q = Except.ok (firstResponse st llm q).content := by
  unfold process_query
  rw [process_query_traced_direct st llm jloads net q hs h1]

/-- A model that always answers directly, with no tool calls. -/
def llmHello : LLM := fun _ _ _ =>
  { role := "assistant", content := some "hello there", tool_calls := [] }

/-- Witness for C8: on the one-server registry, the no-tool-calls model
response is returned unchanged. -/
theorem claim_C8_witness :
    process_query stOneServer llmHello jloadsStrict netNine "hello"
      = Except.ok (some "hello there") :=
  claim_C8_direct_answer stOneServer llmHello jloadsStrict netNine "hello"
    (by decide) rfl

/-- Counterexample to C8 as stated: with zero connected endpoints and a
model that would answer "hello there" with no tool calls, process_query
does not return the model's text — it raises
ValueError("No servers connected") before any model call. -/
theorem claim_C8_counterexample :
    emptyClient.servers = [] ∧
    (llmHello [Msg.user "hello"] (get_all_tools emptyClient) "auto").tool_calls = [] ∧
    process_query emptyClient llmHello jloadsStrict netNine "hello"
      = Except.error "No servers connected" ∧
    process_query emptyClient llmHello jloadsStrict netNine "hello"
      ≠ Except.ok (some "hello there") := by
  have he : process_query emptyClient llmHello jloadsStrict netNine "hello"
      = Except.error "No servers connected" := rfl
  refine ⟨rfl, rfl, he, ?_⟩
  intro h
  rw [he] at h
  exact Except.noConfusion h
